import Mathlib

/-!
Shallow embedding of the MIND X MUSCLE backend (src/main.py, src/schemas.py).

Conventions of the embedding:
* Python floats are modelled as rationals (ℚ); Python ints as Int.
* The document store is modelled as association lists from a string id to a
  document record, in insertion order.  `find_one` returns the first match;
  `update_one` updates the first match and is a no-op when nothing matches,
  matching the single-document semantics of the store.
* A FastAPI `HTTPException` is a pair of a status code and a detail string.
  In `update_attendance` the whole handler body sits inside a
  `try ... except Exception` block, so the `HTTPException(404, ...)` raised
  for a missing session is itself caught and re-raised as
  `HTTPException(400, str(e))`; the embedding reproduces that wrapping.
* Real time (`datetime.utcnow()`) is passed in as an explicit parameter.
* `database.py` is imported by `main.py` but is not part of the given source
  tree; its `create_document` / `get_documents` helpers are modelled from the
  specification of the Document Store Adapter (insert appends in insertion
  order and returns the generated id; query returns all matching documents in
  insertion order, supporting equality and greater-than filters, where a
  greater-than comparison never matches an absent/null field).
-/

/-- A FastAPI/Starlette HTTPException: status code plus detail string. -/
structure HTTPError where
  status_code : Nat
  detail : String
deriving DecidableEq, Repr

/-- The string rendering `str(e)` of a Starlette `HTTPException`,
`f"\x7bstatus_code\x7d: \x7bdetail\x7d"`. -/
def httpErrorStr (e : HTTPError) : String :=
  toString e.status_code ++ ": " ++ e.detail

/-- Floor of a rational as an integer, via floor division of numerator by
denominator (the denominator of a reduced rational is positive). -/
def ratFloor (q : ℚ) : Int :=
  Int.fdiv q.num q.den

/-- Round a rational to the nearest integer, ties to even: the semantics of
Python `round(x)` on an exactly-represented value. -/
def roundHalfEven (q : ℚ) : Int :=
  let f := ratFloor q
  let r := q - (f : ℚ)
  if r < 1/2 then f
  else if 1/2 < r then f + 1
  else if f % 2 = 0 then f else f + 1

/-- Python `round(x, 3)`: round to 3 decimal places, ties to even. -/
def pyRound3 (q : ℚ) : ℚ :=
  (roundHalfEven (q * 1000) : ℚ) / 1000

/-- Request body of `POST /relative-strength` (`OneRMRequest` in main.py). -/
structure OneRMRequest where
  one_rm_kg : ℚ
  bodyweight_kg : ℚ
  date : Option String := none
deriving DecidableEq, Repr

/-- Response model `RelativeStrengthResponse` (schemas.py). -/
structure RelativeStrengthResponse where
  client_id : String
  date : Option String
  one_rm_kg : ℚ
  bodyweight_kg : ℚ
  relative_strength : ℚ
deriving DecidableEq, Repr

/-- Handler of `POST /relative-strength` (main.py, `relative_strength`):
reject non-positive bodyweight with a 400, otherwise divide and round. -/
def relative_strength (data : OneRMRequest) :
    Except HTTPError RelativeStrengthResponse :=
  if data.bodyweight_kg ≤ 0 then
    Except.error ⟨400, "Bodyweight must be > 0"⟩
  else
    Except.ok
      { client_id := ""
        date := data.date
        one_rm_kg := data.one_rm_kg
        bodyweight_kg := data.bodyweight_kg
        relative_strength := pyRound3 (data.one_rm_kg / data.bodyweight_kg) }

/-- The `Client` pydantic model (schemas.py) as submitted to `POST /clients`:
optional fields are `Option`-valued. -/
structure Client where
  full_name : String
  email : String
  phone : Option String := none
  gender : Option String := none
  date_of_birth : Option String := none
  height_cm : Option ℚ := none
  weight_kg : Option ℚ := none
  goal : Option String := none
  notes : Option String := none
  package_type : Option String := none
  sessions_total : Option Int := none
  sessions_remaining : Option Int := none
  is_active : Bool := true
deriving DecidableEq, Repr

/-- Range check for an optional numeric field with inclusive bounds, as in
pydantic `Field(None, ge=lo, le=hi)`: an absent value passes. -/
def optInRange (v : Option ℚ) (lo hi : ℚ) : Bool :=
  match v with
  | none => true
  | some x => lo ≤ x && x ≤ hi

/-- Lower-bound check for an optional integer field, pydantic
`Field(None, ge=lo)`. -/
def optIntGe (v : Option Int) (lo : Int) : Bool :=
  match v with
  | none => true
  | some x => lo ≤ x

/-- Membership check for an optional `Literal` string field. -/
def optLiteral (v : Option String) (allowed : List String) : Bool :=
  match v with
  | none => true
  | some s => allowed.contains s

/-- Pydantic validation of the `Client` schema (schemas.py lines 14-27):
gender is an enumerated literal, `height_cm` ∈ [50,250], `weight_kg` ∈
[20,400], `sessions_total ≥ 0`, `sessions_remaining ≥ 0`. -/
def Client.schemaValid (c : Client) : Bool :=
  optLiteral c.gender ["male", "female", "other"] &&
  optInRange c.height_cm 50 250 &&
  optInRange c.weight_kg 20 400 &&
  optIntGe c.sessions_total 0 &&
  optIntGe c.sessions_remaining 0

/-- A stored `session` document, as written by `POST /sessions` from the
`Session` schema (schemas.py lines 43-51) plus the `updated_at` stamp the
attendance handler sets. -/
structure SessionDoc where
  client_id : String
  start_time : String
  end_time : String
  status : String := "scheduled"
  location : Option String := none
  notes : Option String := none
  reschedule_count : Int := 0
  is_frozen : Bool := false
  updated_at : Option String := none
deriving DecidableEq, Repr

/-- A stored `client` document as seen by the attendance transition.  The
claims under verification concern clients whose `sessions_remaining` counter
is present and numeric, so it is carried as an `Int` here (the store `$inc`
operator acts on a numeric field). -/
structure ClientDoc where
  full_name : String
  email : String
  sessions_total : Option Int := none
  sessions_remaining : Int
  is_active : Bool := true
  updated_at : Option String := none
deriving DecidableEq, Repr

/-- `find_one` on a collection: the first document whose id equals the given
id, if any. -/
def findOne {α : Type} (docs : List (String × α)) (id : String) : Option α :=
  (docs.find? (fun p => p.1 == id)).map Prod.snd

/-- `update_one` on a collection: rewrite the first document whose id equals
the given id; a no-op when no document matches. -/
def updateFirst {α : Type} (docs : List (String × α)) (id : String)
    (f : α → α) : List (String × α) :=
  match docs with
  | [] => []
  | (k, v) :: rest =>
    if k == id then (k, f v) :: rest else (k, v) :: updateFirst rest id f

/-- The mutable store as touched by the attendance transition: the `session`
and `client` collections, each in insertion order. -/
structure DB where
  sessions : List (String × SessionDoc)
  clients : List (String × ClientDoc)
deriving DecidableEq, Repr

/-- Handler of `POST /sessions/\x7bsession_id\x7d/attendance` (main.py,
`update_attendance`).  Looks up the session; if absent, the inner
`HTTPException(404, "Session not found")` is caught by the surrounding
`except Exception` and re-raised as a 400 whose detail is `str(e)`.
Otherwise the session status (and `updated_at := now`) is set
unconditionally, and exactly when the requested status is `"completed"` the
owning client has `sessions_remaining` decremented by 1 via `$inc` (and
`updated_at := now`).  Returns the response outcome together with the store
as left behind. -/
def update_attendance (db : DB) (session_id : String) (payload_status : String)
    (now : String) : Except HTTPError Unit × DB :=
  match findOne db.sessions session_id with
  | none =>
    (Except.error ⟨400, httpErrorStr ⟨404, "Session not found"⟩⟩, db)
  | some sess =>
    let db1 : DB :=
      { db with
        sessions := updateFirst db.sessions session_id
          (fun s => { s with status := payload_status, updated_at := some now }) }
    if payload_status == "completed" then
      (Except.ok (),
        { db1 with
          clients := updateFirst db1.clients sess.client_id
            (fun c =>
              { c with sessions_remaining := c.sessions_remaining - 1,
                       updated_at := some now }) })
    else
      (Except.ok (), db1)

/-- A stored `measurement` document (schemas.py lines 29-41); numeric fields
are optional, and a field that is absent or null is `none`. -/
structure MeasurementDoc where
  client_id : String
  date : Option String := none
  weight_kg : Option ℚ := none
  bodyfat_pct : Option ℚ := none
  chest_cm : Option ℚ := none
  waist_cm : Option ℚ := none
  hips_cm : Option ℚ := none
  thigh_cm : Option ℚ := none
  arm_cm : Option ℚ := none
  vo2max : Option ℚ := none
  one_rm_kg : Option ℚ := none
  bodyweight_kg : Option ℚ := none
deriving DecidableEq, Repr

/-- Modelled from the spec: `database.py` (the Document Store Adapter) is not
part of the given source tree.  Per the spec, `query` supports greater-than
comparison on numeric fields; a document whose field is absent or null never
matches a greater-than filter. -/
def gtFilterMatch (v : Option ℚ) (bound : ℚ) : Bool :=
  match v with
  | none => false
  | some x => bound < x

/-- Modelled from the spec: `get_documents("measurement", filter)` with the
filter used by `GET /clients/\x7bclient_id\x7d/progress/relative-strength`
(main.py line 125): equality on `client_id` and greater-than-zero bounds on
`one_rm_kg` and `bodyweight_kg`; results are returned in insertion order. -/
def progress_relative_strength (docs : List MeasurementDoc)
    (client_id : String) : List MeasurementDoc :=
  docs.filter (fun m =>
    m.client_id == client_id &&
    gtFilterMatch m.one_rm_kg 0 &&
    gtFilterMatch m.bodyweight_kg 0)

/-- The inclusion condition as the spec sentence words it: a Measurement of
this client is included exactly when `one_rm_kg` and `bodyweight_kg` are both
present and strictly positive. -/
def specProgressIncluded (client_id : String) (m : MeasurementDoc) : Bool :=
  m.client_id == client_id &&
  (match m.one_rm_kg with | none => false | some v => decide (0 < v)) &&
  (match m.bodyweight_kg with | none => false | some v => decide (0 < v))

/-- Request body of `POST /consent/sign` (`SignConsentRequest`, main.py). -/
structure SignConsentRequest where
  client_id : String
  client_name : String
  template_id : String
  template_title : String
  template_version : String
  signature_text : String
  media_consent : Bool := true
deriving DecidableEq, Repr

/-- A stored `signedconsent` document (`SignedConsent`, schemas.py). -/
structure SignedConsentDoc where
  client_id : String
  client_name : String
  template_id : String
  template_title : String
  template_version : String
  signed_at : Option String := none
  signature_text : String
  media_consent : Bool := true
  pdf_filename : Option String := none
deriving DecidableEq, Repr

/-- A calendar date, standing for the result of `datetime.utcnow()`. -/
structure UTCDate where
  year : Nat
  month : Nat
  day : Nat
deriving DecidableEq, Repr

/-- Zero-pad a natural to two digits, as `strftime` `%m` / `%d` do. -/
def pad2 (n : Nat) : String :=
  if n < 10 then "0" ++ toString n else toString n

/-- Zero-pad a natural to four digits, as `strftime` `%Y` does. -/
def pad4 (n : Nat) : String :=
  if n < 10 then "000" ++ toString n
  else if n < 100 then "00" ++ toString n
  else if n < 1000 then "0" ++ toString n
  else toString n

/-- `datetime.utcnow().strftime("%Y-%m-%d")`. -/
def strftimeYMD (d : UTCDate) : String :=
  pad4 d.year ++ "-" ++ pad2 d.month ++ "-" ++ pad2 d.day

/-- Handler of `POST /consent/sign` (main.py, `sign_consent`): derive the
pdf filename from the fixed brand token, the submitted client name and the
current UTC date; build the `SignedConsent` record carrying that filename;
persist it via `create_document` (modelled from the spec: insert appends the
document in insertion order and returns the generated id, here the position);
respond with the id and the filename.  No file is written anywhere: the
handler only manipulates the string. -/
def sign_consent (store : List SignedConsentDoc) (data : SignConsentRequest)
    (today : UTCDate) (now_iso : String) :
    List SignedConsentDoc × (Nat × String) :=
  let filename :=
    "Consent_AswajithSS_" ++ data.client_name ++ "_" ++ strftimeYMD today
      ++ ".pdf"
  let signed : SignedConsentDoc :=
    { client_id := data.client_id
      client_name := data.client_name
      template_id := data.template_id
      template_title := data.template_title
      template_version := data.template_version
      signed_at := some now_iso
      signature_text := data.signature_text
      media_consent := data.media_consent
      pdf_filename := some filename }
  (store ++ [signed], (store.length, filename))

/-! Concrete sample data used to instantiate the theorems below. -/

/-- A sample stored session, still in its initial `"scheduled"` status. -/
def sampleSession : SessionDoc :=
  { client_id := "c1"
    start_time := "2024-01-01T10:00:00"
    end_time := "2024-01-01T11:00:00" }

/-- A sample stored client with 5 sessions remaining. -/
def sampleClient : ClientDoc :=
  { full_name := "Asha Rao", email := "asha@example.com",
    sessions_remaining := 5 }

/-- A store holding one scheduled session owned by one client. -/
def sampleDB : DB :=
  ⟨[("s1", sampleSession)], [("c1", sampleClient)]⟩

/-- The sample session after it has already been marked completed. -/
def completedSession : SessionDoc :=
  { sampleSession with status := "completed" }

/-- A store whose only session is already in status `"completed"`. -/
def completedDB : DB :=
  ⟨[("s1", completedSession)], [("c1", sampleClient)]⟩

/-- A sample stored client whose counter is already at zero. -/
def zeroClient : ClientDoc :=
  { full_name := "Zed Row", email := "zed@example.com",
    sessions_remaining := 0 }

/-- A store pairing the scheduled session with the zero-counter client. -/
def zeroDB : DB :=
  ⟨[("s1", sampleSession)], [("c1", zeroClient)]⟩

/-- A store with no sessions and no clients. -/
def emptyDB : DB := ⟨[], []⟩

/-- A `Client` submission carrying a negative `sessions_remaining`. -/
def negClient : Client :=
  { full_name := "Neg Example", email := "neg@example.com",
    sessions_remaining := some (-1) }

/-- A valid `Client` submission with 5 sessions remaining. -/
def okClient : Client :=
  { full_name := "Ok Example", email := "ok@example.com",
    sessions_remaining := some 5 }

/-! Helper lemmas about the store primitives. -/

/-- `update_one` followed by `find_one` on the same id yields the rewritten
first match. -/
theorem findOne_updateFirst_self {α : Type} (docs : List (String × α))
    (id : String) (f : α → α) :
    findOne (updateFirst docs id f) id = (findOne docs id).map f := by
  induction docs with
  | nil => rfl
  | cons p rest ih =>
    rcases p with ⟨k, v⟩
    by_cases h : k = id
    · subst h
      simp [updateFirst, findOne]
    · have hb : (k == id) = false := by simpa using h
      simp only [updateFirst, hb, if_neg, Bool.false_eq_true, findOne,
        List.find?] at ih ⊢
      simpa [hb] using ih

/-- Floor division by one is the identity. -/
theorem int_fdiv_one (n : ℤ) : Int.fdiv n 1 = n := by
  cases n with
  | ofNat m =>
    cases m with
    | zero => rfl
    | succ k => simp [Int.fdiv, Nat.div_one]
  | negSucc m => simp [Int.fdiv, Nat.div_one]

/-- `ratFloor` of an integer is that integer. -/
theorem ratFloor_intCast (n : ℤ) : ratFloor (n : ℚ) = n := by
  simp [ratFloor, Rat.num_intCast, Rat.den_intCast, int_fdiv_one]

/-- Rounding an integer-valued rational returns that integer. -/
theorem roundHalfEven_intCast (n : ℤ) : roundHalfEven (n : ℚ) = n := by
  simp only [roundHalfEven, ratFloor_intCast, sub_self]
  norm_num

/-- C4 (scratch check): a zero bodyweight is rejected. -/
theorem relative_strength_rejects_nonpositive_bodyweight
    (data : OneRMRequest) (h : data.bodyweight_kg ≤ 0) :
    relative_strength data = Except.error ⟨400, "Bodyweight must be > 0"⟩ := by
  simp [relative_strength, h]

/-- C4 witness at bodyweight 0. -/
theorem relative_strength_rejects_nonpositive_bodyweight_witness :
    (OneRMRequest.mk 100 0 none).bodyweight_kg ≤ 0 ∧
    relative_strength (OneRMRequest.mk 100 0 none) =
      Except.error ⟨400, "Bodyweight must be > 0"⟩ :=
  ⟨by decide,
   relative_strength_rejects_nonpositive_bodyweight _ (by decide)⟩

/-- C5: for positive bodyweight the endpoint succeeds, the result field is
exactly `round(one_rm_kg / bodyweight_kg, 3)`, and the submitted inputs and
optional date are echoed back. -/
theorem relative_strength_positive_bodyweight (data : OneRMRequest)
    (h : 0 < data.bodyweight_kg) :
    relative_strength data = Except.ok
      { client_id := ""
        date := data.date
        one_rm_kg := data.one_rm_kg
        bodyweight_kg := data.bodyweight_kg
        relative_strength := pyRound3 (data.one_rm_kg / data.bodyweight_kg) } := by
  have h' : ¬ data.bodyweight_kg ≤ 0 := not_le.mpr h
  simp [relative_strength, h']

/-- C5 witness: one_rm 100 at bodyweight 80 yields exactly 1.25, with the
inputs and date echoed. -/
theorem relative_strength_positive_bodyweight_witness :
    (0 : ℚ) < 80 ∧
    relative_strength (OneRMRequest.mk 100 80 (some "2024-06-01")) =
      Except.ok
        { client_id := ""
          date := some "2024-06-01"
          one_rm_kg := 100
          bodyweight_kg := 80
          relative_strength := 5 / 4 } := by
  refine ⟨by decide, ?_⟩
  rw [relative_strength_positive_bodyweight _ (by decide)]
  have h1 : (100 : ℚ) / 80 * 1000 = ((1250 : ℤ) : ℚ) := by norm_num
  have hv : pyRound3 ((100 : ℚ) / 80) = 5 / 4 := by
    unfold pyRound3
    rw [h1, roundHalfEven_intCast]
    norm_num
  simp [hv]

/-- A greater-than store filter matches exactly the present values above the
bound. -/
theorem gtFilterMatch_eq_true (v : Option ℚ) (b : ℚ) :
    gtFilterMatch v b = true ↔ ∃ x, v = some x ∧ b < x := by
  cases v <;> simp [gtFilterMatch]

/-- C9: the relative-strength endpoint errors exactly when the bodyweight is
non-positive; `one_rm_kg` is unconstrained, and the computed value can be
negative (one_rm -50 at bodyweight 80) or zero (one_rm 0). -/
theorem relative_strength_rejects_iff_nonpositive_bodyweight :
    (∀ data : OneRMRequest,
      (∃ e, relative_strength data = Except.error e) ↔
        data.bodyweight_kg ≤ 0) ∧
    (∃ r, relative_strength (OneRMRequest.mk (-50) 80 none) = Except.ok r ∧
      r.relative_strength < 0) ∧
    (∃ r, relative_strength (OneRMRequest.mk 0 80 none) = Except.ok r ∧
      r.relative_strength = 0) := by
  refine ⟨?_, ?_, ?_⟩
  · intro data
    unfold relative_strength
    by_cases hbw : data.bodyweight_kg ≤ 0
    · simp [hbw]
    · simp [hbw]
  · have hbw : ¬ (80 : ℚ) ≤ 0 := by norm_num
    have hv : pyRound3 ((-50 : ℚ) / 80) = ((-625 : ℤ) : ℚ) / 1000 := by
      unfold pyRound3
      rw [show ((-50 : ℚ) / 80 * 1000) = ((-625 : ℤ) : ℚ) by norm_num,
        roundHalfEven_intCast]
    refine ⟨{ client_id := "", date := none, one_rm_kg := -50,
              bodyweight_kg := 80,
              relative_strength := pyRound3 ((-50 : ℚ) / 80) }, ?_, ?_⟩
    · simp [relative_strength, hbw]
    · rw [hv]; norm_num
  · have hbw : ¬ (80 : ℚ) ≤ 0 := by norm_num
    have hv : pyRound3 ((0 : ℚ) / 80) = ((0 : ℤ) : ℚ) / 1000 := by
      unfold pyRound3
      rw [show ((0 : ℚ) / 80 * 1000) = ((0 : ℤ) : ℚ) by norm_num,
        roundHalfEven_intCast]
    refine ⟨{ client_id := "", date := none, one_rm_kg := 0,
              bodyweight_kg := 80,
              relative_strength := pyRound3 ((0 : ℚ) / 80) }, ?_, ?_⟩
    · simp [relative_strength, hbw]
    · rw [hv]; norm_num

/-- C8: the derived consent filename is the fixed brand token sandwiched
between the `Consent_` prefix token, the submitted client name, the current
UTC date in `YYYY-MM-DD` form, and the `.pdf` extension; the handler only
derives this string, it writes no file. -/
theorem sign_consent_filename_format (store : List SignedConsentDoc)
    (data : SignConsentRequest) (today : UTCDate) (now_iso : String) :
    (sign_consent store data today now_iso).2.2 =
      "Consent_" ++ "AswajithSS" ++ "_" ++ data.client_name ++ "_"
        ++ strftimeYMD today ++ ".pdf" := rfl

/-- C10: the filename in the response of `POST /consent/sign` is exactly the
`pdf_filename` stored in the `SignedConsent` record it persists. -/
theorem sign_consent_response_matches_stored_record
    (store : List SignedConsentDoc) (data : SignConsentRequest)
    (today : UTCDate) (now_iso : String) :
    ∃ d : SignedConsentDoc,
      (sign_consent store data today now_iso).1 = store ++ [d] ∧
      d.pdf_filename = some (sign_consent store data today now_iso).2.2 :=
  ⟨_, rfl, rfl⟩

/-- C6: the progress query returns exactly the stored Measurements of the
requested client whose `one_rm_kg` and `bodyweight_kg` are both present and
strictly positive, and the result is a sublist of the store, hence in
insertion order. -/
theorem progress_query_filters_positive_fields (client_id : String)
    (docs : List MeasurementDoc) :
    (∀ m : MeasurementDoc,
      m ∈ progress_relative_strength docs client_id ↔
        (m ∈ docs ∧ m.client_id = client_id ∧
          (∃ v, m.one_rm_kg = some v ∧ 0 < v) ∧
          (∃ w, m.bodyweight_kg = some w ∧ 0 < w))) ∧
    List.Sublist (progress_relative_strength docs client_id) docs := by
  constructor
  · intro m
    unfold progress_relative_strength
    rw [List.mem_filter]
    simp only [Bool.and_eq_true, beq_iff_eq, gtFilterMatch_eq_true]
    tauto
  · exact List.filter_sublist docs

/-- C1: on an existing session the attendance request succeeds, the session
status is set to the requested value in every case, the client collection is
untouched for any non-`completed` status, and for `completed` the owning
client has `sessions_remaining` decremented by exactly 1. -/
theorem update_attendance_decrements_iff_completed (db : DB)
    (sid ps now : String) (sess : SessionDoc)
    (h : findOne db.sessions sid = some sess) :
    (update_attendance db sid ps now).1 = Except.ok () ∧
    findOne (update_attendance db sid ps now).2.sessions sid =
      some { sess with status := ps, updated_at := some now } ∧
    (ps ≠ "completed" →
      (update_attendance db sid ps now).2.clients = db.clients) ∧
    (∀ c, ps = "completed" → findOne db.clients sess.client_id = some c →
      findOne (update_attendance db sid ps now).2.clients sess.client_id =
        some { c with sessions_remaining := c.sessions_remaining - 1,
                      updated_at := some now }) := by
  by_cases hps : ps = "completed"
  · subst hps
    have e : update_attendance db sid "completed" now =
        (Except.ok (),
          { sessions :=
              updateFirst db.sessions sid fun s =>
                { s with status := "completed", updated_at := some now },
            clients :=
              updateFirst db.clients sess.client_id fun c =>
                { c with sessions_remaining := c.sessions_remaining - 1,
                         updated_at := some now } }) := by
      simp [update_attendance, h]
    rw [e]
    refine ⟨rfl, ?_, fun hne => absurd rfl hne, ?_⟩
    · simp [findOne_updateFirst_self, h]
    · intro c _ hc
      simp [findOne_updateFirst_self, hc]
  · have hb : (ps == "completed") = false := by
      simpa using hps
    have e : update_attendance db sid ps now =
        (Except.ok (),
          { db with sessions :=
              updateFirst db.sessions sid fun s =>
                { s with status := ps, updated_at := some now } }) := by
      simp [update_attendance, h, hb]
    rw [e]
    refine ⟨rfl, ?_, fun _ => rfl, fun c hcomp _ => absurd hcomp hps⟩
    simp [findOne_updateFirst_self, h]

/-- C1 witness: on the sample store, marking the scheduled session completed
sets its status and takes the client from 5 to 4 remaining sessions. -/
theorem update_attendance_decrements_iff_completed_witness :
    (update_attendance sampleDB "s1" "completed" "t1").1 = Except.ok () ∧
    findOne (update_attendance sampleDB "s1" "completed" "t1").2.sessions
        "s1" =
      some { sampleSession with
               status := "completed", updated_at := some "t1" } ∧
    findOne (update_attendance sampleDB "s1" "completed" "t1").2.clients
        "c1" =
      some { sampleClient with
               sessions_remaining := 4, updated_at := some "t1" } := by
  have h := update_attendance_decrements_iff_completed sampleDB "s1"
    "completed" "t1" sampleSession rfl
  exact ⟨h.1, h.2.1, h.2.2.2 sampleClient rfl rfl⟩

/-- C2: marking a session completed is not idempotent: starting from a
session already in status `"completed"`, issuing the attendance operation
with `"completed"` again decrements the owning client a further time, so two
consecutive calls take the counter down by 2. -/
theorem update_attendance_repeat_completed_decrements_again (db : DB)
    (sid now1 now2 : String) (sess : SessionDoc) (c : ClientDoc)
    (h1 : findOne db.sessions sid = some sess)
    (_h2 : sess.status = "completed")
    (h3 : findOne db.clients sess.client_id = some c) :
    findOne (update_attendance
        (update_attendance db sid "completed" now1).2
        sid "completed" now2).2.clients sess.client_id =
      some { c with sessions_remaining := c.sessions_remaining - 2,
                    updated_at := some now2 } := by
  have e1 : (update_attendance db sid "completed" now1).2 =
      { sessions :=
          updateFirst db.sessions sid fun s =>
            { s with status := "completed", updated_at := some now1 },
        clients :=
          updateFirst db.clients sess.client_id fun x =>
            { x with sessions_remaining := x.sessions_remaining - 1,
                     updated_at := some now1 } } := by
    simp [update_attendance, h1]
  set db1 := (update_attendance db sid "completed" now1).2 with hdb1
  have hs1 : findOne db1.sessions sid =
      some { sess with status := "completed", updated_at := some now1 } := by
    rw [e1]
    simp [findOne_updateFirst_self, h1]
  have hc1 : findOne db1.clients sess.client_id =
      some { c with sessions_remaining := c.sessions_remaining - 1,
                    updated_at := some now1 } := by
    rw [e1]
    simp [findOne_updateFirst_self, h3]
  have e2 : (update_attendance db1 sid "completed" now2).2 =
      { sessions :=
          updateFirst db1.sessions sid fun s =>
            { s with status := "completed", updated_at := some now2 },
        clients :=
          updateFirst db1.clients sess.client_id fun x =>
            { x with sessions_remaining := x.sessions_remaining - 1,
                     updated_at := some now2 } } := by
    simp [update_attendance, hs1]
  rw [e2]
  simp only [findOne_updateFirst_self, hc1, Option.map_some]
  have harith : c.sessions_remaining - 1 - 1 = c.sessions_remaining - 2 := by
    omega
  simp [harith]

/-- C2 witness: on the store whose session is already completed, two
completed-attendance calls take the client from 5 remaining to 3. -/
theorem update_attendance_repeat_completed_decrements_again_witness :
    findOne (update_attendance
        (update_attendance completedDB "s1" "completed" "t1").2
        "s1" "completed" "t2").2.clients "c1" =
      some { sampleClient with
               sessions_remaining := 3, updated_at := some "t2" } := by
  have h := update_attendance_repeat_completed_decrements_again completedDB
    "s1" "t1" "t2" completedSession sampleClient rfl rfl rfl
  simpa [sampleClient] using h

/-- C3 counterexample: on an empty store the attendance handler does not
surface a 404 not-found error: the inner 404 is caught by the generic
`except Exception` block and re-raised with status code 400 (its detail being
the string rendering of the caught exception); the store is left unchanged. -/
theorem update_attendance_missing_session_not404 :
    (update_attendance emptyDB "s1" "completed" "t0").1 =
      Except.error ⟨400, httpErrorStr ⟨404, "Session not found"⟩⟩ ∧
    httpErrorStr ⟨404, "Session not found"⟩ = "404: Session not found" ∧
    (400 : Nat) ≠ 404 ∧
    (update_attendance emptyDB "s1" "completed" "t0").2 = emptyDB := by
  refine ⟨rfl, ?_, by decide, rfl⟩
  decide

/-- C3 amended: for a session id matching no stored session, the attendance
handler fails with a client error of status 400 whose detail is the string
rendering of the caught 404 not-found exception, and every stored record
(all sessions and all clients) is left unchanged. -/
theorem update_attendance_missing_session_client_error (db : DB)
    (sid ps now : String) (h : findOne db.sessions sid = none) :
    (update_attendance db sid ps now).1 =
      Except.error ⟨400, httpErrorStr ⟨404, "Session not found"⟩⟩ ∧
    (update_attendance db sid ps now).2 = db := by
  unfold update_attendance
  rw [h]
  exact ⟨rfl, rfl⟩

/-- C3 amended witness at the empty store. -/
theorem update_attendance_missing_session_client_error_witness :
    (update_attendance emptyDB "missing" "completed" "t0").1 =
      Except.error ⟨400, httpErrorStr ⟨404, "Session not found"⟩⟩ ∧
    (update_attendance emptyDB "missing" "completed" "t0").2 = emptyDB :=
  update_attendance_missing_session_client_error emptyDB "missing"
    "completed" "t0" rfl

/-- C7 counterexample: the decrement logic has no precondition at all — on a
store whose only client is at 0 remaining sessions, marking its session
completed drives the counter to -1 — while the Client schema validation does
reject a negative `sessions_remaining` at creation time.  Both halves of the
claim are therefore false as stated. -/
theorem nonneg_enforcement_counterexample :
    zeroDB.clients = [("c1", zeroClient)] ∧
    zeroClient.sessions_remaining = 0 ∧
    findOne (update_attendance zeroDB "s1" "completed" "t0").2.clients "c1" =
      some { zeroClient with
               sessions_remaining := -1, updated_at := some "t0" } ∧
    Client.schemaValid negClient = false := by
  refine ⟨rfl, rfl, ?_, ?_⟩
  · decide
  · decide

/-- C7 amended: non-negativity of `sessions_remaining` is enforced by the
Client schema validation at creation time (its `ge=0` bound), and is NOT
enforced by the attendance decrement logic, which has no precondition and
can drive a stored counter negative. -/
theorem nonneg_enforced_by_schema_not_decrement :
    (∀ c : Client, Client.schemaValid c = true →
      ∀ n : Int, c.sessions_remaining = some n → 0 ≤ n) ∧
    (∃ db : DB, ∃ sid now k : String, ∃ cd : ClientDoc,
      (∀ p ∈ db.clients, 0 ≤ p.2.sessions_remaining) ∧
      (k, cd) ∈ (update_attendance db sid "completed" now).2.clients ∧
      cd.sessions_remaining < 0) := by
  constructor
  · intro c hv n hn
    have h5 : optIntGe c.sessions_remaining 0 = true := by
      simp only [Client.schemaValid, Bool.and_eq_true] at hv
      exact hv.2
    rw [hn] at h5
    simpa [optIntGe] using h5
  · refine ⟨zeroDB, "s1", "t0", "c1",
      { zeroClient with sessions_remaining := -1, updated_at := some "t0" },
      ?_, ?_, by decide⟩
    · intro p hp
      have hpe : p = ("c1", zeroClient) := by
        simpa [zeroDB] using hp
      subst hpe
      decide
    · rw [show (update_attendance zeroDB "s1" "completed" "t0").2.clients =
          [("c1", { zeroClient with
                      sessions_remaining := -1,
                      updated_at := some "t0" })] from rfl]
      exact List.mem_singleton.mpr rfl

/-- C7 amended witness: a concrete schema-valid client yields a non-negative
counter bound. -/
theorem nonneg_enforced_by_schema_not_decrement_witness : (0 : Int) ≤ 5 :=
  nonneg_enforced_by_schema_not_decrement.1 okClient rfl 5 rfl
